import Mathlib

/-!
Shallow embedding of the skill-execution layer of the repository:

* `packages/skill-template/src/skills/agent.ts` — the `Agent` skill:
  `commonPreprocess` (URL-source merging and the decision whether to call
  `prepareContext`), `setupAgent` (MCP client creation), and `agentNode`
  (the inner llm/tools workflow with its conditional edge, the recursion
  limit of 100, and the `try/finally` that closes the MCP client).
* the image-generation skill (`ImageGeneration.generateImage`): streamed
  response reading with a wall-clock timeout, regex-based extraction of the
  image URL and the generation id from the accumulated buffer, the emitted
  events and the error taxonomy.

JavaScript strings are modelled as `String` / `List Char`, JS numbers
carrying token budgets as `Int`, `Date.now()` readings as `Nat`
millisecond timestamps, and `undefined`-able fields as `Option`.
-/

namespace Refly

/-! ## Agent graph (agent.ts) -/

/-- A tool call requested by the model (`AIMessage.tool_calls` entry). -/
structure ToolCall where
  name : String
  args : String
deriving DecidableEq, Repr

/-- A message in the inner `MessagesAnnotation` state.  `toolCalls` is
`none` when the JS field `tool_calls` is `undefined`. -/
structure AgentMsg where
  content : String
  toolCalls : Option (List ToolCall) := none
deriving DecidableEq, Repr

/-- Target of the conditional edge out of the `llm` node. -/
inductive Route where
  | toTools
  | toEnd
deriving DecidableEq, Repr

/-- The conditional edge registered on the `llm` node
(`addConditionalEdges('llm', ...)` in `agentNode`): read the last message
of the graph state; if it carries a non-empty `tool_calls` list, route to
the `tools` node, otherwise to `END`.  Returns `none` for an empty message
list, where the JS code would fault reading `tool_calls` of `undefined`
(unreachable in the compiled graph: `llm` always appends its response
before the edge runs). -/
def routeAfterLLM (messages : List AgentMsg) : Option Route :=
  match messages.getLast? with
  | none => none
  | some aiMessage =>
    match aiMessage.toolCalls with
    | some tcs => if tcs.length > 0 then some Route.toTools else some Route.toEnd
    | none => some Route.toEnd

/-- Error surfaced by the graph executor. -/
inductive GraphRunError where
  | recursionLimitExceeded
deriving DecidableEq, Repr

/-- Modelled from the spec: the third-party graph executor (`workflow.compile()`
/ `app.invoke` with `recursionLimit: 100`) is not part of this repository.
Per the spec, it runs the wired workflow — `START → llm`, `tools → llm`,
and the conditional edge `routeAfterLLM` out of `llm` — counting one step
per executed node, and once the step budget is exhausted it surfaces a
fatal recursion-limit error instead of looping further.  `invoke` is the
bound chat model, `toolNode` maps the accumulated messages to the tool
results appended to the history. -/
def runAgentWorkflow (invoke : List AgentMsg → AgentMsg)
    (toolNode : List AgentMsg → List AgentMsg) :
    Nat → List AgentMsg → Except GraphRunError (List AgentMsg)
  | 0, _ => Except.error GraphRunError.recursionLimitExceeded
  | fuel + 1, msgs =>
    let response := invoke msgs
    let msgs' := msgs ++ [response]
    match routeAfterLLM msgs' with
    | some Route.toTools =>
      match fuel with
      | 0 => Except.error GraphRunError.recursionLimitExceeded
      | f + 1 => runAgentWorkflow invoke toolNode f (msgs' ++ toolNode msgs')
    | _ => Except.ok msgs'

/-! ### `setupAgent` / `agentNode` resource lifecycle

The observable lifecycle events of the MCP client are traced so that the
close-count of each exit path can be stated.  `SetupOutcome` abstracts the
behaviour of the external calls made inside `setupAgent` after the client
object has been constructed. -/

/-- Lifecycle events of one `agentNode` execution. -/
inductive AgentEvent where
  | clientCreated
  | graphRun
  | clientClosed
deriving DecidableEq, Repr

/-- Behaviour of the external MCP calls inside `setupAgent`:
`ok` — `initializeConnections` and `getTools` succeed with a non-empty
tool list; `initFails` — `initializeConnections` throws; `noTools` —
`getTools` returns an empty list (the code then throws `'No tools found'`,
caught and rethrown as `'Failed to initialize MCP tools'`). -/
inductive SetupOutcome where
  | ok
  | initFails
  | noTools
deriving DecidableEq, Repr

/-- `setupAgent`: constructs the `MultiServerMCPClient`, then inside a
`try/catch` initializes connections and loads tools; any failure is
rethrown as `'Failed to initialize MCP tools'`.  The catch block does not
close the freshly created client.  Returns the event trace and whether
setup returned normally. -/
def setupAgentTrace (o : SetupOutcome) : List AgentEvent × Bool :=
  match o with
  | SetupOutcome.ok => ([AgentEvent.clientCreated], true)
  | SetupOutcome.initFails => ([AgentEvent.clientCreated], false)
  | SetupOutcome.noTools => ([AgentEvent.clientCreated], false)

/-- `agentNode` after preprocessing: `await this.setupAgent(user)`, then a
`try { ...build and invoke the workflow... } finally { client.close() }`.
If `setupAgent` throws, the error propagates before the `try` block is
entered; otherwise the workflow runs (`bodyThrows` abstracts whether
`app.invoke` throws) and the `finally` closes the client on both exits.
Returns the event trace and whether `agentNode` returned normally. -/
def agentNodeTrace (o : SetupOutcome) (bodyThrows : Bool) : List AgentEvent × Bool :=
  let setup := setupAgentTrace o
  if setup.2 then
    (setup.1 ++ [AgentEvent.graphRun, AgentEvent.clientClosed], !bodyThrows)
  else
    (setup.1, false)

/-- Number of times `client.close()` ran in a trace. -/
def closeCount (tr : List AgentEvent) : Nat :=
  tr.count AgentEvent.clientClosed

/-! ### `commonPreprocess`: URL-source merge and context preparation -/

/-- A retrieved web source (`Source` of `@refly/openapi-schema`), reduced
to the fields the merge order depends on. -/
structure Source where
  url : String
  title : String
  content : String
deriving DecidableEq, Repr

/-- `const urlSources = [...contextUrlSources, ...queryUrlSources]` in
`commonPreprocess`: context-URL sources first, query-derived after. -/
def combineUrlSources (contextUrlSources queryUrlSources : List Source) : List Source :=
  contextUrlSources ++ queryUrlSources

/-- Result of the context phase of `commonPreprocess`. -/
structure PreprocessResult where
  prepareContextCalled : Bool
  context : String
  sources : List Source
deriving Repr

/-- The context phase of `commonPreprocess`: merge URL sources, decide
`needPrepareContext = (hasContext || hasUrlSources ||
enableKnowledgeBaseSearch) && remainingTokens > 0`, and only then call
`prepareContext` (passed here as a function argument) to fill `context`
and `sources`; otherwise both keep their initial values `''` and `[]`. -/
def commonPreprocessContext (hasContext enableKnowledgeBaseSearch : Bool)
    (contextUrlSources queryUrlSources : List Source) (remainingTokens : Int)
    (prepareContext : Unit → String × List Source) : PreprocessResult :=
  let urlSources := combineUrlSources contextUrlSources queryUrlSources
  let hasUrlSources := urlSources.length > 0
  let needPrepareContext :=
    (hasContext || hasUrlSources || enableKnowledgeBaseSearch) && decide (remainingTokens > 0)
  if needPrepareContext then
    let preparedRes := prepareContext ()
    { prepareContextCalled := true, context := preparedRes.1, sources := preparedRes.2 }
  else
    { prepareContextCalled := false, context := "", sources := [] }

/-! ## Image generation skill (`ImageGeneration.generateImage`)

The streamed response text is modelled as `List Char`; the two JS regexes
`/!\[.*?\]\((https:\/\/.*?)\)/` and the one matching a gen_id in backticks
are embedded with their leftmost-match, lazy-quantifier,
dot-excludes-newline semantics. -/

/-- The backtick character (U+0060) delimiting the gen_id in the stream. -/
def backtick : Char := Char.ofNat 96

/-- Lazy `.*?` up to the first occurrence of `stop`: returns the consumed
characters, failing at end of input or at a newline (which `.` cannot
match). -/
def scanUntil (stop : Char) : List Char → Option (List Char)
  | [] => none
  | c :: cs =>
    if c = stop then some []
    else if c = '\n' then none
    else (scanUntil stop cs).map (fun t => c :: t)

/-- The literal part of the URL regex after the first lazy group. -/
def urlLiteral : List Char := "](https://".toList

/-- Attempt of the URL regex tail at the current position: the literal
`](https://` must match here, and the capture is `https://` followed by a
lazy run up to the closing parenthesis. -/
def urlCheckHere (cs : List Char) : Option (List Char) :=
  if urlLiteral.isPrefixOf cs then
    (scanUntil ')' (cs.drop 10)).map (fun t => "https://".toList ++ t)
  else none

/-- Expansion of the first lazy `.*?` of the URL regex (shortest-first,
with backtracking past positions whose tail fails): try the tail at each
position, consuming one non-newline character on failure. -/
def urlCont : List Char → Option (List Char)
  | [] => none
  | c :: cs =>
    match urlCheckHere (c :: cs) with
    | some cap => some cap
    | none => if c = '\n' then none else urlCont cs

/-- `fullResponse.match(/!\[.*?\]\((https:\/\/.*?)\)/)?.[1]`: leftmost
start position where `![` matches and the rest of the pattern completes;
returns the captured URL. -/
def matchUrl : List Char → Option (List Char)
  | [] => none
  | '!' :: '[' :: rest =>
    match urlCont rest with
    | some cap => some cap
    | none => matchUrl ('[' :: rest)
  | _ :: cs => matchUrl cs

/-- The literal head of the gen_id regex: `gen_id: ` followed by a
backtick. -/
def genIdLiteral : List Char := "gen_id: ".toList ++ [backtick]

/-- The gen_id regex: leftmost occurrence of the 9-character literal head,
then a lazy capture up to the closing backtick; a head occurrence whose
capture cannot complete is backtracked past. -/
def matchGenId : List Char → Option (List Char)
  | [] => none
  | c :: cs =>
    if genIdLiteral.isPrefixOf (c :: cs) then
      match scanUntil backtick ((c :: cs).drop 9) with
      | some cap => some cap
      | none => matchGenId cs
    else matchGenId cs

/-- The variables mutated by the stream-reading loop: `imageUrl`, `genId`
(both initially `''`) and the accumulated `fullResponse`. -/
structure ExtractState where
  imageUrl : List Char
  genId : List Char
  fullResponse : List Char
deriving DecidableEq, Repr

/-- Initial loop state. -/
def initExtractState : ExtractState :=
  { imageUrl := [], genId := [], fullResponse := [] }

/-- One chunk arrival: append to `fullResponse`, re-run both matches on
the whole buffer, and record each capture only if it is truthy
(non-empty) and the corresponding variable is still empty
(`urlMatch?.[1] && !imageUrl`, `genIdMatch?.[1] && !genId`). -/
def updateState (st : ExtractState) (chunkData : List Char) : ExtractState :=
  let buf := st.fullResponse ++ chunkData
  let newUrl :=
    match matchUrl buf with
    | some cap => if cap ≠ [] ∧ st.imageUrl = [] then cap else st.imageUrl
    | none => st.imageUrl
  let newGenId :=
    match matchGenId buf with
    | some cap => if cap ≠ [] ∧ st.genId = [] then cap else st.genId
    | none => st.genId
  { imageUrl := newUrl, genId := newGenId, fullResponse := buf }

/-- One result of `reader.read()`: either the stream is done, or a chunk
whose decoded data may be absent (`result.value` falsy). -/
inductive ReadRes where
  | streamDone
  | chunk (data : Option (List Char))
deriving DecidableEq, Repr

/-- Why the reading loop stopped: `bothFound` is the `break` once both
extractions succeeded, `timedOut` the wall-clock guard, `streamEnded` the
`done` flag; `pending` marks exhaustion of the modelled read sequence
while the loop would still be waiting on the reader. -/
inductive ExitKind where
  | bothFound
  | timedOut
  | streamEnded
  | pending
deriving DecidableEq, Repr

/-- The `while (!done && Date.now() - startTime < timeout)` loop.  The
read sequence pairs each `reader.read()` result with the `Date.now()`
value observed by the guard before that read.  A `streamDone` result sets
`done` (the guard then exits); a chunk with data updates the state and
`break`s once both `imageUrl` and `genId` are non-empty. -/
def readLoop (timeout startTime : Nat) :
    ExtractState → List (Nat × ReadRes) → ExtractState × ExitKind
  | st, [] => (st, ExitKind.pending)
  | st, (now, r) :: rest =>
    if now - startTime < timeout then
      match r with
      | ReadRes.streamDone => (st, ExitKind.streamEnded)
      | ReadRes.chunk none => readLoop timeout startTime st rest
      | ReadRes.chunk (some d) =>
        let st' := updateState st d
        if st'.imageUrl ≠ [] ∧ st'.genId ≠ [] then (st', ExitKind.bothFound)
        else readLoop timeout startTime st' rest
    else (st, ExitKind.timedOut)

/-- The hard-coded stream-reading timeout (`6000000` ms). -/
def streamTimeout : Nat := 6000000

/-- Artifact emitted on success, reduced to its deterministic fields
(`entityId` comes from `genImageID()` and is omitted, as is the
`Date.now()`-based `storageKey`). -/
structure ArtifactData where
  title : String
  url : String
  prompt : String
  genId : String
  model : String
  ratio : String
deriving DecidableEq, Repr

/-- Canvas-node payload emitted on success (deterministic fields). -/
structure NodeData where
  title : String
  imageUrl : String
  prompt : String
  genId : String
  model : String
  ratio : String
deriving DecidableEq, Repr

/-- Events emitted through `this.emitEvent` during `generateImage`. -/
inductive Event where
  | logEvt (key : String)
  | artifactEvt (a : ArtifactData)
  | createNodeEvt (n : NodeData)
  | errorEvt (message : String)
deriving DecidableEq, Repr

/-- Messages returned by `generateImage` in the graph-state update. -/
inductive GenMsg where
  | ai (imageUrl : String) (text : String)
  | system (text : String)
deriving DecidableEq, Repr

/-- How `generateImage` exits: a synchronous throw that escapes the
function, or a normal return with messages. -/
inductive GenOutcome where
  | thrown (msg : String)
  | returned (msgs : List GenMsg)
deriving DecidableEq, Repr

/-- Behaviour of the `fetch` call: a non-ok response with a status code
and error text, or an ok response whose body may be absent
(`response.body?.getReader()` undefined) or a readable sequence of timed
read results. -/
inductive HttpResult where
  | httpError (status : Nat) (errorText : String)
  | httpOk (body : Option (List (Nat × ReadRes)))
deriving DecidableEq, Repr

/-- Error text thrown on a non-ok response. -/
def httpFailMsg (status : Nat) (errorText : String) : String :=
  "图像生成失败: " ++ toString status ++ " - " ++ errorText

/-- Error text when the response body yields no reader. -/
def noStreamMsg : String := "无法读取响应流"

/-- Error text when the loop ends without an extracted image URL. -/
def noUrlMsg : String := "无法从响应中提取图像URL"

/-- Error text thrown when the prompt is missing. -/
def promptRequiredMsg : String := "A prompt is required for image generation"

/-- Error text thrown when the API key is missing. -/
def apiKeyRequiredMsg : String := "API key is required for image generation"

/-- Artifact title: the prompt truncated to 30 characters with an
ellipsis. -/
def mkImageTitle (query : String) : String :=
  "生成图像: " ++ query.take 30 ++ (if query.length > 30 then "..." else "")

/-- `genId || 'unknown'`: the gen id as displayed in artifact metadata,
node metadata and the final message. -/
def displayGenId (genId : String) : String :=
  if genId = "" then "unknown" else genId

/-- Text part of the final assistant message. -/
def resultText (query genId : String) : String :=
  "\n\n**生成的图像**\n\n提示词: " ++ query ++ "\n\n图像ID: " ++ displayGenId genId

/-- The body of the `try` block of `generateImage`, after the prompt and
API-key guards: the two log events (`image.generating`,
`image.api.request`, the latter immediately before the single `fetch`),
then the response handling — non-ok status, missing reader, the read
loop, and on an extracted URL the artifact and canvas-node events and the
assistant message (the inner `try` around `new AIMessage` cannot fail in
this model, so the `SystemMessage` fallback branch is dead).  Returns the
events emitted so far and either the thrown error text or the returned
messages. -/
def generateImageTry (query : String) (model ratio : String) (http : HttpResult)
    (startTime : Nat) : List Event × Except String (List GenMsg) :=
  let ev0 := [Event.logEvt "image.generating", Event.logEvt "image.api.request"]
  match http with
  | HttpResult.httpError status errorText =>
    (ev0, Except.error (httpFailMsg status errorText))
  | HttpResult.httpOk none => (ev0, Except.error noStreamMsg)
  | HttpResult.httpOk (some reads) =>
    let st := (readLoop streamTimeout startTime initExtractState reads).1
    if st.imageUrl = [] then (ev0, Except.error noUrlMsg)
    else
      let imageUrl := String.mk st.imageUrl
      let genId := String.mk st.genId
      let imageTitle := mkImageTitle query
      let artifact : ArtifactData :=
        { title := imageTitle, url := imageUrl, prompt := query,
          genId := displayGenId genId, model := model, ratio := ratio }
      let nodeData : NodeData :=
        { title := imageTitle, imageUrl := imageUrl, prompt := query,
          genId := displayGenId genId, model := model, ratio := ratio }
      (ev0 ++ [Event.artifactEvt artifact, Event.createNodeEvt nodeData],
        Except.ok [GenMsg.ai imageUrl (resultText query genId)])

/-- `generateImage`: the two guards (`!query`, `!apiKey`) throw before the
`try` block, so nothing is emitted for them; every error thrown inside
the `try` is caught, emitted as a single `error` event, and converted
into a returned `SystemMessage` fallback.  The `gen_id` edit-mode input
only changes the request body and is not modelled. -/
def generateImage (query apiKey model ratio : String) (http : HttpResult)
    (startTime : Nat) : List Event × GenOutcome :=
  if query = "" then ([], GenOutcome.thrown promptRequiredMsg)
  else if apiKey = "" then ([], GenOutcome.thrown apiKeyRequiredMsg)
  else
    let tryRes := generateImageTry query model ratio http startTime
    match tryRes.2 with
    | Except.ok msgs => (tryRes.1, GenOutcome.returned msgs)
    | Except.error msg =>
      (tryRes.1 ++ [Event.errorEvt msg],
        GenOutcome.returned [GenMsg.system ("图像生成错误: " ++ msg)])

/-- Number of `error` events in a trace. -/
def errorEventCount (evs : List Event) : Nat :=
  (evs.filter (fun e => match e with | Event.errorEvt _ => true | _ => false)).length

/-- Number of `image.api.request` log events in a trace — each precedes
exactly one `fetch`, so this counts the API requests made. -/
def apiRequestCount (evs : List Event) : Nat :=
  (evs.filter (fun e =>
    match e with
    | Event.logEvt k => k = "image.api.request"
    | _ => false)).length

/-! ## Theorems -/

/-- Claim C1: in the skill graph runner, the conditional edge after the
`llm` node routes to `END` whenever the last message of the graph state
carries zero tool calls (`tool_calls` absent or an empty list), and never
to the `tools` node; with one or more tool calls it routes to `tools`. -/
theorem routeAfterLLM_zero_toolCalls_ends (messages : List AgentMsg) (m : AgentMsg)
    (hlast : messages.getLast? = some m) :
    ((m.toolCalls = none ∨ m.toolCalls = some []) →
      routeAfterLLM messages = some Route.toEnd) ∧
    (∀ tcs, m.toolCalls = some tcs → tcs ≠ [] →
      routeAfterLLM messages = some Route.toTools) := by
  unfold routeAfterLLM
  rw [hlast]
  constructor
  · rintro (h | h) <;> simp [h]
  · intro tcs h hne
    simp [h, List.length_pos.mpr hne]

/-- Witness for C1 at concrete graph states. -/
theorem routeAfterLLM_zero_toolCalls_ends_witness :
    routeAfterLLM [{ content := "done", toolCalls := none }] = some Route.toEnd ∧
    routeAfterLLM [{ content := "", toolCalls := some [{ name := "search", args := "q" }] }]
      = some Route.toTools :=
  ⟨(routeAfterLLM_zero_toolCalls_ends [{ content := "done", toolCalls := none }]
      { content := "done", toolCalls := none } rfl).1 (Or.inl rfl),
   (routeAfterLLM_zero_toolCalls_ends
      [{ content := "", toolCalls := some [{ name := "search", args := "q" }] }]
      { content := "", toolCalls := some [{ name := "search", args := "q" }] } rfl).2
      [{ name := "search", args := "q" }] rfl (by decide)⟩

/-- Helper for C2: with a model that always requests a tool call, the
workflow exhausts any step budget and surfaces the recursion-limit
error. -/
theorem runAgentWorkflow_always_tools_errors
    (invoke : List AgentMsg → AgentMsg) (toolNode : List AgentMsg → List AgentMsg)
    (halways : ∀ ms, ∃ tcs, (invoke ms).toolCalls = some tcs ∧ tcs ≠ []) :
    ∀ fuel msgs, runAgentWorkflow invoke toolNode fuel msgs
      = Except.error GraphRunError.recursionLimitExceeded := by
  intro fuel
  induction fuel using Nat.strong_induction_on with
  | _ fuel ih =>
    match fuel with
    | 0 => intro msgs; rfl
    | 1 =>
      intro msgs
      obtain ⟨tcs, htc, hne⟩ := halways msgs
      have hroute : routeAfterLLM (msgs ++ [invoke msgs]) = some Route.toTools := by
        unfold routeAfterLLM
        rw [List.getLast?_concat]
        simp [htc, List.length_pos.mpr hne]
      simp [runAgentWorkflow, hroute]
    | f + 2 =>
      intro msgs
      obtain ⟨tcs, htc, hne⟩ := halways msgs
      have hroute : routeAfterLLM (msgs ++ [invoke msgs]) = some Route.toTools := by
        unfold routeAfterLLM
        rw [List.getLast?_concat]
        simp [htc, List.length_pos.mpr hne]
      simp only [runAgentWorkflow, hroute]
      exact ih f (by omega) _

/-- Claim C2: with the configured recursion limit of 100, a model that
requests a tool call on every response drives the llm/tools loop into the
surfaced step-limit error — the run terminates with
`recursionLimitExceeded` rather than looping forever or truncating
silently. -/
theorem runAgentWorkflow_limit_100_surfaces_error
    (invoke : List AgentMsg → AgentMsg) (toolNode : List AgentMsg → List AgentMsg)
    (halways : ∀ ms, ∃ tcs, (invoke ms).toolCalls = some tcs ∧ tcs ≠ [])
    (msgs : List AgentMsg) :
    runAgentWorkflow invoke toolNode 100 msgs
      = Except.error GraphRunError.recursionLimitExceeded :=
  runAgentWorkflow_always_tools_errors invoke toolNode halways 100 msgs

/-- Witness for C2: a concrete always-tool-calling model. -/
theorem runAgentWorkflow_limit_100_surfaces_error_witness :
    runAgentWorkflow
      (fun _ => { content := "", toolCalls := some [{ name := "t", args := "" }] })
      (fun _ => []) 100 []
      = Except.error GraphRunError.recursionLimitExceeded :=
  runAgentWorkflow_limit_100_surfaces_error _ _
    (fun _ => ⟨[{ name := "t", args := "" }], rfl, by decide⟩) []

/-- Claim C3 (code bug in the source): the spec requires the MCP client to
be closed exactly once on every exit path of the agent node, but when
`setupAgent` fails after constructing the client (its
`initializeConnections` throws, or `getTools` finds no tools), the rethrow
happens before `agentNode`'s `try/finally` is entered and the client is
never closed — the close count is `0`.  Only when setup returns does the
`finally` close it exactly once, on both the normal and the throwing
path. -/
theorem agentNode_close_leak_on_setup_failure :
    closeCount (agentNodeTrace SetupOutcome.initFails false).1 = 0 ∧
    closeCount (agentNodeTrace SetupOutcome.noTools false).1 = 0 ∧
    (∀ bodyThrows, closeCount (agentNodeTrace SetupOutcome.ok bodyThrows).1 = 1) := by
  refine ⟨by decide, by decide, ?_⟩
  intro b
  cases b <;> decide

/-- Claim C4: whenever the query processor reports a non-positive
remaining token budget, `commonPreprocess` skips context preparation
(`prepareContext` is never invoked) and the context string handed to the
message builder stays empty. -/
theorem commonPreprocessContext_nonpositive_budget_skips
    (hasContext enableKnowledgeBaseSearch : Bool)
    (contextUrlSources queryUrlSources : List Source) (remainingTokens : Int)
    (prepareContext : Unit → String × List Source)
    (h : remainingTokens ≤ 0) :
    (commonPreprocessContext hasContext enableKnowledgeBaseSearch contextUrlSources
        queryUrlSources remainingTokens prepareContext).prepareContextCalled = false ∧
    (commonPreprocessContext hasContext enableKnowledgeBaseSearch contextUrlSources
        queryUrlSources remainingTokens prepareContext).context = "" := by
  have hfalse : decide (remainingTokens > 0) = false :=
    decide_eq_false (not_lt.mpr h)
  unfold commonPreprocessContext
  simp [hfalse]

/-- Witness for C4 at a concrete negative budget, with context present and
a `prepareContext` that would return a non-empty string if it were
called. -/
theorem commonPreprocessContext_nonpositive_budget_skips_witness :
    (commonPreprocessContext true true [{ url := "https://a", title := "a", content := "a" }] []
        (-5) (fun _ => ("nonempty", []))).prepareContextCalled = false ∧
    (commonPreprocessContext true true [{ url := "https://a", title := "a", content := "a" }] []
        (-5) (fun _ => ("nonempty", []))).context = "" :=
  commonPreprocessContext_nonpositive_budget_skips true true _ [] (-5) _ (by norm_num)

/-- Claim C5: the merged URL-source list of `commonPreprocess` is the
context-URL sources followed by the query-derived sources — for context
sources `[a, b]` and query-derived sources `[c, d]` it is exactly
`[a, b, c, d]`. -/
theorem combineUrlSources_context_first (a b c d : Source) :
    combineUrlSources [a, b] [c, d] = [a, b, c, d] := rfl

/-! ### Claim C6: chunk-boundary invariance of the stream extraction -/

/-- The representative streamed text of claim C6, containing the image
marker `![x](https://host/img.png)` and the gen-id marker. -/
def imgStreamText : List Char := "![x](https://host/img.png) gen_id: `abc123`".toList

/-- The URL the parser must extract from `imgStreamText`. -/
def imgUrlTarget : List Char := "https://host/img.png".toList

/-- The generation id the parser must extract from `imgStreamText`. -/
def genIdTarget : List Char := "abc123".toList

/-- A sequence of chunk reads, all observed well before the timeout. -/
def chunkReads (time : Nat) (chunks : List (List Char)) : List (Nat × ReadRes) :=
  chunks.map (fun c => (time, ReadRes.chunk (some c)))

/-- `fullResponse` accumulates each chunk. -/
theorem updateState_fullResponse (st : ExtractState) (c : List Char) :
    (updateState st c).fullResponse = st.fullResponse ++ c := rfl

/-- When the URL regex fails on the buffer, `imageUrl` is unchanged. -/
theorem updateState_imageUrl_of_match_none (st : ExtractState) (c : List Char)
    (h : matchUrl (st.fullResponse ++ c) = none) :
    (updateState st c).imageUrl = st.imageUrl := by
  simp [updateState, h]

/-- When the URL regex matches on the buffer, `imageUrl` is overwritten
only if the capture is non-empty and `imageUrl` was still empty. -/
theorem updateState_imageUrl_of_match_some (st : ExtractState) (c cap : List Char)
    (h : matchUrl (st.fullResponse ++ c) = some cap) :
    (updateState st c).imageUrl
      = if cap ≠ [] ∧ st.imageUrl = [] then cap else st.imageUrl := by
  simp [updateState, h]

/-- When the gen-id regex fails on the buffer, `genId` is unchanged. -/
theorem updateState_genId_of_match_none (st : ExtractState) (c : List Char)
    (h : matchGenId (st.fullResponse ++ c) = none) :
    (updateState st c).genId = st.genId := by
  simp [updateState, h]

/-- When the gen-id regex matches on the buffer, `genId` is overwritten
only if the capture is non-empty and `genId` was still empty. -/
theorem updateState_genId_of_match_some (st : ExtractState) (c cap : List Char)
    (h : matchGenId (st.fullResponse ++ c) = some cap) :
    (updateState st c).genId
      = if cap ≠ [] ∧ st.genId = [] then cap else st.genId := by
  simp [updateState, h]

/-- On every prefix of `imgStreamText`, the URL regex either fails or
captures exactly the target URL (checked exhaustively; the text is 43
characters long). -/
theorem matchUrl_on_imgStream_take :
    ∀ n < 44, matchUrl (imgStreamText.take n) = none ∨
      matchUrl (imgStreamText.take n) = some imgUrlTarget := by decide

/-- On every prefix of `imgStreamText`, the gen-id regex either fails or
captures exactly the target id. -/
theorem matchGenId_on_imgStream_take :
    ∀ n < 44, matchGenId (imgStreamText.take n) = none ∨
      matchGenId (imgStreamText.take n) = some genIdTarget := by decide

/-- If the URL regex captures the target on the buffer and `imageUrl` is
empty or already the target, it is the target afterwards. -/
theorem updateState_imageUrl_of_match_target (st : ExtractState) (c : List Char)
    (h : matchUrl (st.fullResponse ++ c) = some imgUrlTarget)
    (hst : st.imageUrl = [] ∨ st.imageUrl = imgUrlTarget) :
    (updateState st c).imageUrl = imgUrlTarget := by
  rw [updateState_imageUrl_of_match_some st c _ h]
  rcases hst with h' | h'
  · rw [if_pos ⟨by decide, h'⟩]
  · by_cases hc : imgUrlTarget ≠ [] ∧ st.imageUrl = []
    · rw [if_pos hc]
    · rw [if_neg hc]; exact h'

/-- If the gen-id regex captures the target on the buffer and `genId` is
empty or already the target, it is the target afterwards. -/
theorem updateState_genId_of_match_target (st : ExtractState) (c : List Char)
    (h : matchGenId (st.fullResponse ++ c) = some genIdTarget)
    (hst : st.genId = [] ∨ st.genId = genIdTarget) :
    (updateState st c).genId = genIdTarget := by
  rw [updateState_genId_of_match_some st c _ h]
  rcases hst with h' | h'
  · rw [if_pos ⟨by decide, h'⟩]
  · by_cases hc : genIdTarget ≠ [] ∧ st.genId = []
    · rw [if_pos hc]
    · rw [if_neg hc]; exact h'

/-- Invariant of the reading loop over any chunking of `imgStreamText`:
starting from a state whose buffer plus the remaining chunks is the full
text and whose extracted fields are empty or already the targets, the
loop ends with both targets extracted. -/
theorem readLoop_imgStream_aux :
    ∀ (chunks : List (List Char)) (st : ExtractState),
      st.fullResponse ++ chunks.flatten = imgStreamText →
      (st.imageUrl = [] ∨ st.imageUrl = imgUrlTarget) →
      (st.genId = [] ∨ st.genId = genIdTarget) →
      chunks ≠ [] →
      (readLoop streamTimeout 0 st (chunkReads 0 chunks)).1.imageUrl = imgUrlTarget ∧
      (readLoop streamTimeout 0 st (chunkReads 0 chunks)).1.genId = genIdTarget := by
  intro chunks
  induction chunks with
  | nil => intro st _ _ _ hne; exact absurd rfl hne
  | cons c rest ih =>
    intro st hbuf hurl hgen _
    have hjoin : (st.fullResponse ++ c) ++ rest.flatten = imgStreamText := by
      simpa [List.append_assoc] using hbuf
    have hlen : (st.fullResponse ++ c).length < 44 := by
      have h43 : imgStreamText.length = 43 := by decide
      have h := congrArg List.length hjoin
      rw [List.length_append, h43] at h
      omega
    have htake : imgStreamText.take (st.fullResponse ++ c).length = st.fullResponse ++ c := by
      rw [← hjoin]
      exact List.take_left _ _
    have hmu : matchUrl (st.fullResponse ++ c) = none ∨
        matchUrl (st.fullResponse ++ c) = some imgUrlTarget := by
      have h := matchUrl_on_imgStream_take (st.fullResponse ++ c).length hlen
      rwa [htake] at h
    have hmg : matchGenId (st.fullResponse ++ c) = none ∨
        matchGenId (st.fullResponse ++ c) = some genIdTarget := by
      have h := matchGenId_on_imgStream_take (st.fullResponse ++ c).length hlen
      rwa [htake] at h
    have hurl' : (updateState st c).imageUrl = [] ∨
        (updateState st c).imageUrl = imgUrlTarget := by
      rcases hmu with h | h
      · rw [updateState_imageUrl_of_match_none st c h]; exact hurl
      · exact Or.inr (updateState_imageUrl_of_match_target st c h hurl)
    have hgen' : (updateState st c).genId = [] ∨
        (updateState st c).genId = genIdTarget := by
      rcases hmg with h | h
      · rw [updateState_genId_of_match_none st c h]; exact hgen
      · exact Or.inr (updateState_genId_of_match_target st c h hgen)
    have hstep : readLoop streamTimeout 0 st (chunkReads 0 (c :: rest)) =
        (if (updateState st c).imageUrl ≠ [] ∧ (updateState st c).genId ≠ [] then
          (updateState st c, ExitKind.bothFound)
        else readLoop streamTimeout 0 (updateState st c) (chunkReads 0 rest)) := by
      simp [chunkReads, readLoop, streamTimeout]
    rw [hstep]
    by_cases hboth : (updateState st c).imageUrl ≠ [] ∧ (updateState st c).genId ≠ []
    · rw [if_pos hboth]
      refine ⟨?_, ?_⟩
      · rcases hurl' with h | h
        · exact absurd h hboth.1
        · exact h
      · rcases hgen' with h | h
        · exact absurd h hboth.2
        · exact h
    · rw [if_neg hboth]
      have hrest : rest ≠ [] := by
        rintro rfl
        rw [List.flatten_nil, List.append_nil] at hjoin
        refine hboth ⟨?_, ?_⟩
        · rw [updateState_imageUrl_of_match_target st c (by rw [hjoin]; decide) hurl]
          decide
        · rw [updateState_genId_of_match_target st c (by rw [hjoin]; decide) hgen]
          decide
      exact ih (updateState st c)
        (by rw [updateState_fullResponse]; exact hjoin) hurl' hgen' hrest

/-- Claim C6: for every chunking of a streamed text containing the
markers `![x](https://host/img.png)` and the backtick-quoted
`gen_id: abc123`, the stream parser extracts exactly the pair
`(url = "https://host/img.png", genId = "abc123")` — the result does not
depend on where the chunk boundaries fall, because matching re-runs on
the accumulated buffer. -/
theorem generateImage_extraction_chunking_invariant (chunks : List (List Char))
    (h : chunks.flatten = imgStreamText) :
    (readLoop streamTimeout 0 initExtractState (chunkReads 0 chunks)).1.imageUrl
      = "https://host/img.png".toList ∧
    (readLoop streamTimeout 0 initExtractState (chunkReads 0 chunks)).1.genId
      = "abc123".toList := by
  have hne : chunks ≠ [] := by
    rintro rfl
    rw [List.flatten_nil] at h
    exact (by decide : ¬([] : List Char) = imgStreamText) h
  exact readLoop_imgStream_aux chunks initExtractState (by simpa [initExtractState] using h)
    (Or.inl rfl) (Or.inl rfl) hne

/-- Witness for C6: a chunking that splits both markers mid-way. -/
theorem generateImage_extraction_chunking_invariant_witness :
    (readLoop streamTimeout 0 initExtractState
        (chunkReads 0 ["![x](https://ho".toList, "st/img.png) gen_id: `ab".toList,
          "c123`".toList])).1.imageUrl = "https://host/img.png".toList ∧
    (readLoop streamTimeout 0 initExtractState
        (chunkReads 0 ["![x](https://ho".toList, "st/img.png) gen_id: `ab".toList,
          "c123`".toList])).1.genId = "abc123".toList :=
  generateImage_extraction_chunking_invariant
    ["![x](https://ho".toList, "st/img.png) gen_id: `ab".toList, "c123`".toList] (by decide)

/-- Claim C7: the stream-reading loop (a) stops reading before the stream
ends — ignoring every remaining read — as soon as a chunk update leaves
both the image URL and the generation id extracted, (b) exits with the
timeout kind once the wall-clock value observed by the guard shows the
configured timeout elapsed, without performing the pending read, and
(c) when the loop exits without an extracted URL, `generateImage` raises
the URL-extraction failure (a distinct error event and fallback). -/
theorem readLoop_early_stop_timeout_url_error :
    (∀ (timeout startTime : Nat) (st : ExtractState) (now : Nat) (d : List Char)
        (rest : List (Nat × ReadRes)),
      now - startTime < timeout →
      (updateState st d).imageUrl ≠ [] → (updateState st d).genId ≠ [] →
      readLoop timeout startTime st ((now, ReadRes.chunk (some d)) :: rest)
        = (updateState st d, ExitKind.bothFound)) ∧
    (∀ (timeout startTime : Nat) (st : ExtractState) (now : Nat) (r : ReadRes)
        (rest : List (Nat × ReadRes)),
      startTime + timeout ≤ now →
      readLoop timeout startTime st ((now, r) :: rest) = (st, ExitKind.timedOut)) ∧
    (∀ (query apiKey model ratio : String) (reads : List (Nat × ReadRes)) (startTime : Nat),
      query ≠ "" → apiKey ≠ "" →
      (readLoop streamTimeout startTime initExtractState reads).1.imageUrl = [] →
      generateImage query apiKey model ratio (HttpResult.httpOk (some reads)) startTime
        = ([Event.logEvt "image.generating", Event.logEvt "image.api.request",
            Event.errorEvt noUrlMsg],
           GenOutcome.returned [GenMsg.system ("图像生成错误: " ++ noUrlMsg)])) := by
  refine ⟨?_, ?_, ?_⟩
  · intro timeout startTime st now d rest hguard hu hg
    simp [readLoop, hguard, hu, hg]
  · intro timeout startTime st now r rest h
    have hguard : ¬(now - startTime < timeout) := by omega
    simp [readLoop, hguard]
  · intro query apiKey model ratio reads startTime hq hk hurl
    simp [generateImage, generateImageTry, hq, hk, hurl]

/-- Witness for C7: a stream found complete in one chunk stops with a
pending read left; a guard reading at the timeout exits `timedOut`; a
stream that ends without a URL yields the URL-extraction error. -/
theorem readLoop_early_stop_timeout_url_error_witness :
    readLoop 6000000 0 initExtractState
        [(0, ReadRes.chunk (some imgStreamText)), (1, ReadRes.streamDone)]
      = (updateState initExtractState imgStreamText, ExitKind.bothFound) ∧
    readLoop 100 0 initExtractState [(100, ReadRes.streamDone)]
      = (initExtractState, ExitKind.timedOut) ∧
    generateImage "cat" "key" "gpt-4o-image-vip" "1:1"
        (HttpResult.httpOk (some [(0, ReadRes.streamDone)])) 0
      = ([Event.logEvt "image.generating", Event.logEvt "image.api.request",
          Event.errorEvt noUrlMsg],
         GenOutcome.returned [GenMsg.system ("图像生成错误: " ++ noUrlMsg)]) :=
  ⟨readLoop_early_stop_timeout_url_error.1 6000000 0 initExtractState 0 imgStreamText
      [(1, ReadRes.streamDone)] (by decide) (by decide) (by decide),
   readLoop_early_stop_timeout_url_error.2.1 100 0 initExtractState 100 ReadRes.streamDone []
      (by decide),
   readLoop_early_stop_timeout_url_error.2.2 "cat" "key" "gpt-4o-image-vip" "1:1"
      [(0, ReadRes.streamDone)] 0 (by decide) (by decide) (by decide)⟩

/-- Claim C8 counterexample: with a missing prompt, `generateImage` throws
synchronously before the `try` block — no error event is emitted and no
textual fallback message is returned, refuting the claim that on every
failure the skill emits a single error event and returns a fallback
message. -/
theorem generateImage_missing_prompt_throws_without_event :
    generateImage "" "key" "gpt-4o-image-vip" "1:1" (HttpResult.httpOk none) 0
      = ([], GenOutcome.thrown promptRequiredMsg) ∧
    errorEventCount (generateImage "" "key" "gpt-4o-image-vip" "1:1"
        (HttpResult.httpOk none) 0).1 = 0 :=
  ⟨rfl, rfl⟩

/-- The HTTP failure message always starts with a character none of the
other error messages start with. -/
theorem httpFailMsg_starts (status : Nat) (errorText : String) :
    (httpFailMsg status errorText).data.head? = some '图' := rfl

/-- Claim C8 (amended): the five failure conditions produce pairwise
distinct user-visible error messages and the API request is issued at
most once (no automatic retry); the three failures inside the `try`
block (non-success HTTP status, unreadable body, URL not found) each
emit a single error event and return a textual fallback message, while
missing prompt and missing API key throw synchronously with no emitted
event and no fallback. -/
theorem generateImage_failure_taxonomy :
    (∀ (apiKey model ratio : String) (http : HttpResult) (startTime : Nat),
      generateImage "" apiKey model ratio http startTime
        = ([], GenOutcome.thrown promptRequiredMsg)) ∧
    (∀ (query model ratio : String) (http : HttpResult) (startTime : Nat), query ≠ "" →
      generateImage query "" model ratio http startTime
        = ([], GenOutcome.thrown apiKeyRequiredMsg)) ∧
    (∀ (query apiKey model ratio errorText : String) (status startTime : Nat),
      query ≠ "" → apiKey ≠ "" →
      generateImage query apiKey model ratio (HttpResult.httpError status errorText) startTime
        = ([Event.logEvt "image.generating", Event.logEvt "image.api.request",
            Event.errorEvt (httpFailMsg status errorText)],
           GenOutcome.returned
             [GenMsg.system ("图像生成错误: " ++ httpFailMsg status errorText)])) ∧
    (∀ (query apiKey model ratio : String) (startTime : Nat),
      query ≠ "" → apiKey ≠ "" →
      generateImage query apiKey model ratio (HttpResult.httpOk none) startTime
        = ([Event.logEvt "image.generating", Event.logEvt "image.api.request",
            Event.errorEvt noStreamMsg],
           GenOutcome.returned [GenMsg.system ("图像生成错误: " ++ noStreamMsg)])) ∧
    (∀ (query apiKey model ratio : String) (reads : List (Nat × ReadRes)) (startTime : Nat),
      query ≠ "" → apiKey ≠ "" →
      (readLoop streamTimeout startTime initExtractState reads).1.imageUrl = [] →
      errorEventCount (generateImage query apiKey model ratio
          (HttpResult.httpOk (some reads)) startTime).1 = 1) ∧
    (∀ (status : Nat) (errorText : String),
      httpFailMsg status errorText ≠ noStreamMsg ∧
      httpFailMsg status errorText ≠ noUrlMsg ∧
      httpFailMsg status errorText ≠ promptRequiredMsg ∧
      httpFailMsg status errorText ≠ apiKeyRequiredMsg) ∧
    (noStreamMsg ≠ noUrlMsg ∧ noStreamMsg ≠ promptRequiredMsg ∧
      noStreamMsg ≠ apiKeyRequiredMsg ∧ noUrlMsg ≠ promptRequiredMsg ∧
      noUrlMsg ≠ apiKeyRequiredMsg ∧ promptRequiredMsg ≠ apiKeyRequiredMsg) ∧
    (∀ (query apiKey model ratio : String) (http : HttpResult) (startTime : Nat),
      apiRequestCount (generateImage query apiKey model ratio http startTime).1 ≤ 1) := by
  have hne : ∀ (status : Nat) (errorText other : String), other.data.head? ≠ some '图' →
      httpFailMsg status errorText ≠ other := by
    intro status errorText other hother h
    exact hother (h ▸ httpFailMsg_starts status errorText)
  refine ⟨?_, ?_, ?_, ?_, ?_, ?_, ?_, ?_⟩
  · intro apiKey model ratio http startTime
    simp [generateImage]
  · intro query model ratio http startTime hq
    simp [generateImage, hq]
  · intro query apiKey model ratio errorText status startTime hq hk
    simp [generateImage, generateImageTry, hq, hk]
  · intro query apiKey model ratio startTime hq hk
    simp [generateImage, generateImageTry, hq, hk]
  · intro query apiKey model ratio reads startTime hq hk hurl
    simp [generateImage, generateImageTry, hq, hk, hurl, errorEventCount]
  · intro status errorText
    exact ⟨hne _ _ _ (by decide), hne _ _ _ (by decide), hne _ _ _ (by decide),
      hne _ _ _ (by decide)⟩
  · refine ⟨by decide, by decide, by decide, by decide, by decide, by decide⟩
  · intro query apiKey model ratio http startTime
    by_cases hq : query = ""
    · simp [generateImage, hq, apiRequestCount]
    · by_cases hk : apiKey = ""
      · simp [generateImage, hq, hk, apiRequestCount]
      · match http with
        | HttpResult.httpError status errorText =>
          simp [generateImage, generateImageTry, hq, hk, apiRequestCount]
        | HttpResult.httpOk none =>
          simp [generateImage, generateImageTry, hq, hk, apiRequestCount]
        | HttpResult.httpOk (some reads) =>
          by_cases hurl :
              (readLoop streamTimeout startTime initExtractState reads).1.imageUrl = []
          · simp [generateImage, generateImageTry, hq, hk, hurl, apiRequestCount]
          · simp [generateImage, generateImageTry, hq, hk, hurl, apiRequestCount]

/-- Witness for C8 (amended) at concrete inputs for each failure kind. -/
theorem generateImage_failure_taxonomy_witness :
    generateImage "" "key" "m" "1:1" (HttpResult.httpOk none) 0
      = ([], GenOutcome.thrown promptRequiredMsg) ∧
    generateImage "cat" "" "m" "1:1" (HttpResult.httpOk none) 0
      = ([], GenOutcome.thrown apiKeyRequiredMsg) ∧
    generateImage "cat" "key" "m" "1:1" (HttpResult.httpError 500 "boom") 0
      = ([Event.logEvt "image.generating", Event.logEvt "image.api.request",
          Event.errorEvt (httpFailMsg 500 "boom")],
         GenOutcome.returned [GenMsg.system ("图像生成错误: " ++ httpFailMsg 500 "boom")]) ∧
    generateImage "cat" "key" "m" "1:1" (HttpResult.httpOk none) 0
      = ([Event.logEvt "image.generating", Event.logEvt "image.api.request",
          Event.errorEvt noStreamMsg],
         GenOutcome.returned [GenMsg.system ("图像生成错误: " ++ noStreamMsg)]) ∧
    errorEventCount (generateImage "cat" "key" "m" "1:1"
        (HttpResult.httpOk (some [(0, ReadRes.streamDone)])) 0).1 = 1 ∧
    httpFailMsg 500 "boom" ≠ noStreamMsg ∧
    apiRequestCount (generateImage "cat" "key" "m" "1:1"
        (HttpResult.httpError 500 "boom") 0).1 ≤ 1 :=
  ⟨generateImage_failure_taxonomy.1 "key" "m" "1:1" (HttpResult.httpOk none) 0,
   generateImage_failure_taxonomy.2.1 "cat" "m" "1:1" (HttpResult.httpOk none) 0 (by decide),
   generateImage_failure_taxonomy.2.2.1 "cat" "key" "m" "1:1" "boom" 500 0
     (by decide) (by decide),
   generateImage_failure_taxonomy.2.2.2.1 "cat" "key" "m" "1:1" 0 (by decide) (by decide),
   generateImage_failure_taxonomy.2.2.2.2.1 "cat" "key" "m" "1:1"
     [(0, ReadRes.streamDone)] 0 (by decide) (by decide) (by decide),
   (generateImage_failure_taxonomy.2.2.2.2.2.1 500 "boom").1,
   generateImage_failure_taxonomy.2.2.2.2.2.2.2 "cat" "key" "m" "1:1"
     (HttpResult.httpError 500 "boom") 0⟩

/-- A one-chunk stream carrying both markers, for concrete success runs. -/
def demoReads : List (Nat × ReadRes) := [(0, ReadRes.chunk (some imgStreamText))]

set_option maxRecDepth 4000 in
/-- Claim C9 counterexample: on a concrete successful generation the skill
emits four events — two `log` events precede the artifact and canvas-node
events — so the claim that exactly three side effects occur, the first
being the artifact event, is false as stated. -/
theorem generateImage_success_emits_logs_first :
    generateImage "cat" "key" "gpt-4o-image-vip" "1:1"
        (HttpResult.httpOk (some demoReads)) 0
      = ([Event.logEvt "image.generating", Event.logEvt "image.api.request",
          Event.artifactEvt
            { title := "生成图像: cat", url := "https://host/img.png", prompt := "cat",
              genId := "abc123", model := "gpt-4o-image-vip", ratio := "1:1" },
          Event.createNodeEvt
            { title := "生成图像: cat", imageUrl := "https://host/img.png", prompt := "cat",
              genId := "abc123", model := "gpt-4o-image-vip", ratio := "1:1" }],
         GenOutcome.returned
           [GenMsg.ai "https://host/img.png"
             "\n\n**生成的图像**\n\n提示词: cat\n\n图像ID: abc123"]) ∧
    (generateImage "cat" "key" "gpt-4o-image-vip" "1:1"
        (HttpResult.httpOk (some demoReads)) 0).1.length = 4 := by
  refine ⟨?_, by decide⟩
  decide

/-- Claim C9 (amended): on every successful generation, after the two
informational log events emitted before the API request, the skill emits
exactly one artifact event followed immediately by exactly one
canvas-node event — nothing between or after — and returns an assistant
message carrying the extracted image URL. -/
theorem generateImage_success_event_order
    (query apiKey model ratio : String) (reads : List (Nat × ReadRes)) (startTime : Nat)
    (hq : query ≠ "") (hk : apiKey ≠ "")
    (hurl : (readLoop streamTimeout startTime initExtractState reads).1.imageUrl ≠ []) :
    generateImage query apiKey model ratio (HttpResult.httpOk (some reads)) startTime
      = ([Event.logEvt "image.generating", Event.logEvt "image.api.request",
          Event.artifactEvt
            { title := mkImageTitle query,
              url := String.mk
                (readLoop streamTimeout startTime initExtractState reads).1.imageUrl,
              prompt := query,
              genId := displayGenId (String.mk
                (readLoop streamTimeout startTime initExtractState reads).1.genId),
              model := model, ratio := ratio },
          Event.createNodeEvt
            { title := mkImageTitle query,
              imageUrl := String.mk
                (readLoop streamTimeout startTime initExtractState reads).1.imageUrl,
              prompt := query,
              genId := displayGenId (String.mk
                (readLoop streamTimeout startTime initExtractState reads).1.genId),
              model := model, ratio := ratio }],
         GenOutcome.returned
           [GenMsg.ai
             (String.mk (readLoop streamTimeout startTime initExtractState reads).1.imageUrl)
             (resultText query
               (String.mk (readLoop streamTimeout startTime initExtractState reads).1.genId))]) := by
  simp [generateImage, generateImageTry, hq, hk, hurl]

/-- Witness for C9 (amended) on a concrete successful run. -/
theorem generateImage_success_event_order_witness :
    generateImage "cat" "key" "gpt-4o-image-vip" "1:1"
        (HttpResult.httpOk (some demoReads)) 0
      = ([Event.logEvt "image.generating", Event.logEvt "image.api.request",
          Event.artifactEvt
            { title := mkImageTitle "cat",
              url := String.mk (readLoop streamTimeout 0 initExtractState demoReads).1.imageUrl,
              prompt := "cat",
              genId := displayGenId (String.mk
                (readLoop streamTimeout 0 initExtractState demoReads).1.genId),
              model := "gpt-4o-image-vip", ratio := "1:1" },
          Event.createNodeEvt
            { title := mkImageTitle "cat",
              imageUrl := String.mk
                (readLoop streamTimeout 0 initExtractState demoReads).1.imageUrl,
              prompt := "cat",
              genId := displayGenId (String.mk
                (readLoop streamTimeout 0 initExtractState demoReads).1.genId),
              model := "gpt-4o-image-vip", ratio := "1:1" }],
         GenOutcome.returned
           [GenMsg.ai (String.mk (readLoop streamTimeout 0 initExtractState demoReads).1.imageUrl)
             (resultText "cat"
               (String.mk (readLoop streamTimeout 0 initExtractState demoReads).1.genId))]) :=
  generateImage_success_event_order "cat" "key" "gpt-4o-image-vip" "1:1" demoReads 0
    (by decide) (by decide) (by decide)

/-- Claim C10: only the image URL is required from the stream — a stream
yielding a generation id but no URL fails with the URL-extraction error
(error event plus fallback message), whereas a stream yielding a URL but
no generation id succeeds with the string `unknown` substituted for the
gen id in the artifact metadata, the canvas-node metadata, and the final
message text. -/
theorem generateImage_url_required_genId_optional :
    (∀ (query apiKey model ratio : String) (reads : List (Nat × ReadRes)) (startTime : Nat),
      query ≠ "" → apiKey ≠ "" →
      (readLoop streamTimeout startTime initExtractState reads).1.imageUrl = [] →
      generateImage query apiKey model ratio (HttpResult.httpOk (some reads)) startTime
        = ([Event.logEvt "image.generating", Event.logEvt "image.api.request",
            Event.errorEvt noUrlMsg],
           GenOutcome.returned [GenMsg.system ("图像生成错误: " ++ noUrlMsg)])) ∧
    (∀ (query apiKey model ratio : String) (reads : List (Nat × ReadRes)) (startTime : Nat),
      query ≠ "" → apiKey ≠ "" →
      (readLoop streamTimeout startTime initExtractState reads).1.imageUrl ≠ [] →
      (readLoop streamTimeout startTime initExtractState reads).1.genId = [] →
      generateImage query apiKey model ratio (HttpResult.httpOk (some reads)) startTime
        = ([Event.logEvt "image.generating", Event.logEvt "image.api.request",
            Event.artifactEvt
              { title := mkImageTitle query,
                url := String.mk
                  (readLoop streamTimeout startTime initExtractState reads).1.imageUrl,
                prompt := query, genId := "unknown", model := model, ratio := ratio },
            Event.createNodeEvt
              { title := mkImageTitle query,
                imageUrl := String.mk
                  (readLoop streamTimeout startTime initExtractState reads).1.imageUrl,
                prompt := query, genId := "unknown", model := model, ratio := ratio }],
           GenOutcome.returned
             [GenMsg.ai
               (String.mk
                 (readLoop streamTimeout startTime initExtractState reads).1.imageUrl)
               (resultText query "")])) ∧
    (∀ query : String,
      resultText query ""
        = "\n\n**生成的图像**\n\n提示词: " ++ query ++ "\n\n图像ID: " ++ "unknown") := by
  refine ⟨?_, ?_, ?_⟩
  · intro query apiKey model ratio reads startTime hq hk hurl
    simp [generateImage, generateImageTry, hq, hk, hurl]
  · intro query apiKey model ratio reads startTime hq hk hurl hgen
    simp [generateImage, generateImageTry, hq, hk, hurl, hgen, displayGenId, resultText]
  · intro query
    simp [resultText, displayGenId]

/-- A stream with a gen id but no URL. -/
def genIdOnlyReads : List (Nat × ReadRes) :=
  [(0, ReadRes.chunk (some "gen_id: `abc123`".toList)), (1, ReadRes.streamDone)]

/-- A stream with a URL but no gen id. -/
def urlOnlyReads : List (Nat × ReadRes) :=
  [(0, ReadRes.chunk (some "![x](https://host/img.png)".toList)), (1, ReadRes.streamDone)]

/-- Witness for C10: a gen-id-only stream fails with the URL error and an
URL-only stream succeeds with `unknown` substituted everywhere. -/
theorem generateImage_url_required_genId_optional_witness :
    generateImage "cat" "key" "m" "1:1" (HttpResult.httpOk (some genIdOnlyReads)) 0
      = ([Event.logEvt "image.generating", Event.logEvt "image.api.request",
          Event.errorEvt noUrlMsg],
         GenOutcome.returned [GenMsg.system ("图像生成错误: " ++ noUrlMsg)]) ∧
    generateImage "cat" "key" "m" "1:1" (HttpResult.httpOk (some urlOnlyReads)) 0
      = ([Event.logEvt "image.generating", Event.logEvt "image.api.request",
          Event.artifactEvt
            { title := mkImageTitle "cat",
              url := String.mk (readLoop streamTimeout 0 initExtractState urlOnlyReads).1.imageUrl,
              prompt := "cat", genId := "unknown", model := "m", ratio := "1:1" },
          Event.createNodeEvt
            { title := mkImageTitle "cat",
              imageUrl := String.mk
                (readLoop streamTimeout 0 initExtractState urlOnlyReads).1.imageUrl,
              prompt := "cat", genId := "unknown", model := "m", ratio := "1:1" }],
         GenOutcome.returned
           [GenMsg.ai (String.mk (readLoop streamTimeout 0 initExtractState urlOnlyReads).1.imageUrl)
             (resultText "cat" "")]) ∧
    resultText "cat" ""
      = "\n\n**生成的图像**\n\n提示词: " ++ "cat" ++ "\n\n图像ID: " ++ "unknown" :=
  ⟨generateImage_url_required_genId_optional.1 "cat" "key" "m" "1:1" genIdOnlyReads 0
     (by decide) (by decide) (by decide),
   generateImage_url_required_genId_optional.2.1 "cat" "key" "m" "1:1" urlOnlyReads 0
     (by decide) (by decide) (by decide) (by decide),
   generateImage_url_required_genId_optional.2.2 "cat"⟩

end Refly
